import Mathlib

/-!
Shallow embedding of the master-browser raw-disk probing frontend
(src/frontend/src/components/RawDiskViewer.tsx and the legacy variant of the
same component) together with spec-modelled definitions for the backend
commands whose Rust sources are not part of the frontend tree.
Strings are embedded as `List Char`; React component state is embedded as an
explicit record, and each async handler becomes a state-transformation
function parameterised by the outcome of the backend call it awaits.
-/

namespace MasterBrowser

/-- `RawPartition` record from RawDiskViewer.tsx. -/
structure RawPartition where
  name : List Char
  path : List Char
  size : Nat
  fs_type : Option (List Char)
deriving DecidableEq

/-- `RawBlockDevice` record from RawDiskViewer.tsx. -/
structure RawBlockDevice where
  name : List Char
  path : List Char
  size : Nat
  device_type : List Char
  partitions : List RawPartition
deriving DecidableEq

/-- `FSInfo` record from RawDiskViewer.tsx. -/
structure FSInfo where
  fs_type : List Char
  volume_name : List Char
  block_size : Nat
  total_blocks : Nat
  free_blocks : Nat
  serial_number : List Char
  features : List (List Char)
deriving DecidableEq

/-- `PartitionAccessPlan` record from RawDiskViewer.tsx. -/
structure PartitionAccessPlan where
  path : List Char
  fs_type : Option (List Char)
  mount_point : Option (List Char)
  can_browse_now : Bool
  message : List Char
deriving DecidableEq

/-- `RootEntry` record from RawDiskViewer.tsx. -/
structure RootEntry where
  name : List Char
  path : List Char
  is_dir : Bool
  size : Nat
deriving DecidableEq

/-- The `filePreview` state value of RawDiskViewer.tsx. -/
structure FilePreview where
  name : List Char
  content : List Char
deriving DecidableEq

/-- The React `useState` slots of the `RawDiskViewer` component, as one record. -/
structure ViewerState where
  devices : List RawBlockDevice
  selectedPart : Option RawPartition
  fsInfo : Option FSInfo
  accessPlan : Option PartitionAccessPlan
  rootEntries : List RootEntry
  currentRelativePath : List Char
  filePreview : Option FilePreview
deriving DecidableEq

/-- The character class removed by `rel.replace(/^[/\x7b\x7d]+/, '')` in
`normalizeRelative` (forward slash or backslash). -/
def isSep (c : Char) : Bool := c == '/' || c == '\\'

/-- `accessPlan?.mount_point || ''` from `normalizeRelative`. -/
def mountPointOf (plan : Option PartitionAccessPlan) : List Char :=
  match plan with
  | none => []
  | some p =>
    match p.mount_point with
    | none => []
    | some m => m

/-- `normalizeRelative` from RawDiskViewer.tsx: with no (or empty) mount point
the entry path is returned unchanged; otherwise the mount-point preamble is
sliced off when present and the leading run of path separators is removed. -/
def normalizeRelative (plan : Option PartitionAccessPlan) (entryPath : List Char) :
    List Char :=
  let mount := mountPointOf plan
  if mount.isEmpty then entryPath
  else
    let rel := if mount.isPrefixOf entryPath then entryPath.drop mount.length else entryPath
    rel.dropWhile isSep

/-- `fetchDevices` from RawDiskViewer.tsx as a state transformation on the
outcome of `invoke('get_raw_devices')`: on success the device list is replaced
and the selection, filesystem info and access plan are cleared; on failure only
a toast is shown and the state is untouched. -/
def fetchDevicesStep (s : ViewerState) (outcome : Except (List Char) (List RawBlockDevice)) :
    ViewerState :=
  match outcome with
  | Except.ok res => { s with devices := res, selectedPart := none, fsInfo := none, accessPlan := none }
  | Except.error _ => s

/-- `inspectPartition` from RawDiskViewer.tsx as a state transformation on the
joint outcome of the `Promise.all` of `inspect_partition_details` and
`get_partition_access_plan` (both succeed, or the catch block runs). -/
def inspectPartitionStep (s : ViewerState)
    (outcome : Except (List Char) (FSInfo × PartitionAccessPlan)) : ViewerState :=
  match outcome with
  | Except.ok (res, plan) =>
    { s with fsInfo := some res, accessPlan := some plan,
             rootEntries := [], currentRelativePath := [], filePreview := none }
  | Except.error _ =>
    { s with fsInfo := none, accessPlan := none, rootEntries := [] }

/-- `loadEntries` from RawDiskViewer.tsx as a state transformation on the
outcome of `invoke('list_partition_entries')`. The early `if (!selectedPart)
return` guard leaves the state untouched; on success only the first 80 of the
returned entries are kept (`entries.slice(0, 80)`). -/
def loadEntriesStep (s : ViewerState) (relativePath : List Char)
    (outcome : Except (List Char) (List RootEntry)) : ViewerState :=
  match s.selectedPart with
  | none => s
  | some _ =>
    match outcome with
    | Except.ok entries =>
      { s with rootEntries := entries.take 80, currentRelativePath := relativePath,
               filePreview := none }
    | Except.error _ => { s with rootEntries := [] }

/-- The argument record of an `invoke('read_partition_file_preview', ...)` call. -/
structure PreviewRequest where
  path : List Char
  relativePath : List Char
  limit : Nat
deriving DecidableEq

/-- The argument record of an `invoke('list_partition_entries', ...)` call. -/
structure ListEntriesRequest where
  path : List Char
  relativePath : List Char
deriving DecidableEq

/-- The backend call issued by `previewFile` from RawDiskViewer.tsx, if any:
the guard `if (!selectedPart || entry.is_dir) return` suppresses the call, and
otherwise the call carries `limit: 8192` and the normalized relative path. -/
def previewFileRequest (s : ViewerState) (entry : RootEntry) : Option PreviewRequest :=
  match s.selectedPart with
  | none => none
  | some part =>
    if entry.is_dir then none
    else
      some { path := part.path,
             relativePath := normalizeRelative s.accessPlan entry.path,
             limit := 8192 }

/-- The backend call issued by `loadEntries` from RawDiskViewer.tsx, if any. -/
def loadEntriesRequest (s : ViewerState) (relativePath : List Char) :
    Option ListEntriesRequest :=
  match s.selectedPart with
  | none => none
  | some part => some { path := part.path, relativePath := relativePath }

/-- The backend call issued by `openDirectory` from RawDiskViewer.tsx, if any:
the guard `if (!entry.is_dir) return` suppresses the call, and otherwise
`loadEntries(normalizeRelative(entry.path))` is invoked. -/
def openDirectoryRequest (s : ViewerState) (entry : RootEntry) :
    Option ListEntriesRequest :=
  if entry.is_dir then loadEntriesRequest s (normalizeRelative s.accessPlan entry.path)
  else none

/-- The toast text shown by the catch block of `fetchDevices`: a fixed string,
the caught error is discarded. -/
def fetchDevicesErrorToast (_e : List Char) : List Char :=
  "Failed to probe block devices".toList

/-- The toast text shown by the catch block of `inspectPartition` in
RawDiskViewer.tsx: a fixed string, the caught error is discarded. -/
def inspectPartitionErrorToast (_e : List Char) : List Char :=
  "Unknown filesystem or access denied".toList

/-- The toast text shown by the catch block of `loadEntries`: `String(e)`,
the error's own text. -/
def loadEntriesErrorToast (e : List Char) : List Char := e

/-- The toast text shown by the catch block of `previewFile`: `String(e)`,
the error's own text. -/
def previewFileErrorToast (e : List Char) : List Char := e

/-! ### The legacy `inspectPartition` probe chain (src/unnamed/part_005) -/

/-- `Ext4Info` record from the legacy RawDiskViewer (src/unnamed/part_005). -/
structure Ext4Info where
  s_inodes_count : Nat
  s_blocks_count_lo : Nat
  s_free_blocks_count_lo : Nat
  s_free_inodes_count : Nat
  s_volume_name : List Char
  s_last_mounted : List Char
deriving DecidableEq

/-- `NtfsInfo` record from the legacy RawDiskViewer (src/unnamed/part_005). -/
structure NtfsInfo where
  serial_number : List Char
  bytes_per_sector : Nat
  sectors_per_cluster : Nat
  total_sectors : Nat
deriving DecidableEq

/-- `FatInfo` record from the legacy RawDiskViewer (src/unnamed/part_005). -/
structure FatInfo where
  volume_label : List Char
  oem_name : List Char
  bytes_per_sector : Nat
  sectors_per_cluster : Nat
  total_sectors : Nat
deriving DecidableEq

/-- The `InspectionData` tagged union from the legacy RawDiskViewer. -/
inductive InspectionData where
  | ext4 (data : Ext4Info)
  | ntfs (data : NtfsInfo)
  | fat (data : FatInfo)
deriving DecidableEq

/-- The error taxonomy of the core (spec section 7): the kind of failure a
per-format probe can surface. The legacy frontend's catch blocks receive these
opaquely and discard them. -/
inductive ProbeError where
  | notRecognized
  | malformedStructure
  | permissionDenied
  | ioError
deriving DecidableEq

/-- The legacy `inspectPartition` from src/unnamed/part_005 as a function of
the outcomes of the three probes it awaits in order: each probe is wrapped in
`try ... catch (e) \x7b\x7d`, so on ANY failure of one probe — the caught error is
never examined — the next probe's outcome is consulted; the first success wins
and a chain of three failures yields no inspection data. -/
def inspectPartitionLegacy (ext4Probe : Except ProbeError Ext4Info)
    (ntfsProbe : Except ProbeError NtfsInfo)
    (fatProbe : Except ProbeError FatInfo) : Option InspectionData :=
  match ext4Probe with
  | Except.ok d => some (InspectionData.ext4 d)
  | Except.error _ =>
    match ntfsProbe with
    | Except.ok d => some (InspectionData.ntfs d)
    | Except.error _ =>
      match fatProbe with
      | Except.ok d => some (InspectionData.fat d)
      | Except.error _ => none

/-! ### Spec-modelled backend operations (Rust core not in the frontend tree) -/

/-- Filesystem tags recognised by the Signature Detector (spec section 4.3). -/
inductive FsTag where
  | ext4
  | ntfs
  | fat
  | btrfs
  | xfs
deriving DecidableEq

/-- A raw partition image: the byte stored at each absolute offset. -/
def Image : Type := Nat → Nat

/-- Little-endian 16-bit read from an image. -/
def readLe16 (img : Image) (off : Nat) : Nat :=
  img off % 256 + 256 * (img (off + 1) % 256)

/-- Whether the bytes at `off, off+1, ...` match the given byte list. -/
def matchesBytes (img : Image) (off : Nat) : List Nat → Bool
  | [] => true
  | b :: rest => (img off % 256 == b) && matchesBytes img (off + 1) rest

/-- Modelled from the spec: the ext4 superblock magic test — the superblock
sits at offset 1024 and its little-endian 16-bit magic field (at superblock
offset 56) must read 0xEF53. -/
def hasExt4Magic (img : Image) : Bool :=
  readLe16 img (1024 + 56) == 0xEF53

/-- Modelled from the spec: the NTFS OEM ID test — bytes 3..10 of the boot
sector spell "NTFS    ". -/
def hasNtfsMagic (img : Image) : Bool :=
  matchesBytes img 3 [0x4E, 0x54, 0x46, 0x53, 0x20, 0x20, 0x20, 0x20]

/-- Modelled from the spec: the FAT/exFAT boot-sector signature test — bytes
510..511 hold the 0x55 0xAA signature. -/
def hasFatMagic (img : Image) : Bool :=
  matchesBytes img 510 [0x55, 0xAA]

/-- Modelled from the spec: the Btrfs superblock magic test — the superblock
sits at offset 0x10000 and its magic field (at superblock offset 0x40) spells
"_BHRfS_M". -/
def hasBtrfsMagic (img : Image) : Bool :=
  matchesBytes img (0x10000 + 0x40) [0x5F, 0x42, 0x48, 0x52, 0x66, 0x53, 0x5F, 0x4D]

/-- Modelled from the spec: the XFS magic test — bytes 0..3 spell "XFSB". -/
def hasXfsMagic (img : Image) : Bool :=
  matchesBytes img 0 [0x58, 0x46, 0x53, 0x42]

/-- Modelled from the spec: the backend Signature Detector
(`detect(partition_path) -> FsTag | NotRecognized`, spec section 4.3), whose
Rust source is not in the frontend tree. It tests magic values in the fixed
precedence order ext4, NTFS, FAT/exFAT, Btrfs, XFS; the first match wins and
no match yields `none` (`NotRecognized`), not an error. -/
def detect (img : Image) : Option FsTag :=
  if hasExt4Magic img then some FsTag.ext4
  else if hasNtfsMagic img then some FsTag.ntfs
  else if hasFatMagic img then some FsTag.fat
  else if hasBtrfsMagic img then some FsTag.btrfs
  else if hasXfsMagic img then some FsTag.xfs
  else none

/-- A node of a raw filesystem as the Raw Tree Walker resolves paths: either a
regular file with its byte content, or a directory. -/
inductive FsNode where
  | file (content : List Nat)
  | dir
deriving DecidableEq

/-- Failures of `read_preview` (spec section 6). -/
inductive PreviewError where
  | notAFile
  | ioError
deriving DecidableEq

/-- Modelled from the spec: the backend Raw Tree Walker command
`read_preview(partition_path, relative_path, limit_bytes)` (served to the UI
as `read_partition_file_preview`), whose Rust source is not in the frontend
tree. A filesystem is a partial map from relative paths to nodes; a directory
fails with `NotAFile`, an unresolvable path fails with an I/O error, and a
file yields its first `limit_bytes` bytes — reading a shorter file returns the
full content, never an `OutOfRange` error. -/
def read_preview (fs : List Char → Option FsNode) (relative_path : List Char)
    (limit_bytes : Nat) : Except PreviewError (List Nat) :=
  match fs relative_path with
  | none => Except.error PreviewError.ioError
  | some FsNode.dir => Except.error PreviewError.notAFile
  | some (FsNode.file content) => Except.ok (content.take limit_bytes)

/-- A host mount-table entry for a partition: where it is mounted and whether
read access is confirmed. -/
structure MountEntry where
  mount_point : List Char
  readable : Bool
deriving DecidableEq

/-- The mount point of a partition when the host mount table reports it
mounted with read access confirmed. -/
def mountedReadable (mountEntry : Option MountEntry) : Option (List Char) :=
  match mountEntry with
  | none => none
  | some m => if m.readable then some m.mount_point else none

/-- Modelled from the spec: the backend Access Planner
(`plan(partition_path, fs_info) -> AccessPlan`, spec section 4.5), whose Rust
source is not in the frontend tree. State `MountedAndReadable` gives a
browsable plan through the mount bridge; state `RawCapable` (an implemented
Raw Tree Walker decoder for the detected format) gives a browsable raw plan;
state `Unsupported` gives a non-browsable plan naming the missing capability.
Every state carries a non-empty human-readable message. -/
def planAccess (path fsType : List Char) (mountEntry : Option MountEntry)
    (hasRawDecoder : List Char → Bool) : PartitionAccessPlan :=
  match mountedReadable mountEntry with
  | some mp =>
    { path := path, fs_type := some fsType, mount_point := some mp,
      can_browse_now := true,
      message := "Partition is mounted by the host OS; browsing uses the mount bridge".toList }
  | none =>
    if hasRawDecoder fsType then
      { path := path, fs_type := some fsType, mount_point := none,
        can_browse_now := true,
        message := "Raw sector browsing is in use for this format".toList }
    else
      { path := path, fs_type := some fsType, mount_point := none,
        can_browse_now := false,
        message := "Directory decoder not yet implemented for this format".toList }

/-! ### Shared helper lemmas -/

/-- The leading run dropped by `dropWhile` cannot leave a satisfying head. -/
theorem dropWhile_head_sep (p : Char → Bool) :
    ∀ (l : List Char) (c : Char) (cs : List Char),
      l.dropWhile p = c :: cs → p c = false := by
  intro l
  induction l with
  | nil => intro c cs h; simp [List.dropWhile] at h
  | cons a as ih =>
    intro c cs h
    by_cases hp : p a = true
    · rw [List.dropWhile_cons, if_pos hp] at h
      exact ih c cs h
    · rw [List.dropWhile_cons, if_neg hp] at h
      cases h
      exact Bool.not_eq_true _ |>.mp hp

end MasterBrowser

namespace MasterBrowser

/-! ### Claim theorems -/

/-- C2 counterexample: the legacy `inspectPartition` chain of part_005, given
an ext4 probe that failed with `MalformedStructure`, silently consults the
NTFS probe and reports its data — the malformed ext4 superblock is
reinterpreted as NTFS, contradicting the claim that the next candidate is
tried only on `NotRecognized`-equivalent outcomes. -/
theorem C2_malformed_ext4_falls_through :
    inspectPartitionLegacy (Except.error ProbeError.malformedStructure)
      (Except.ok { serial_number := "4E54465321D0".toList, bytes_per_sector := 512,
                   sectors_per_cluster := 8, total_sectors := 204800 })
      (Except.error ProbeError.notRecognized) =
      some (InspectionData.ntfs
        { serial_number := "4E54465321D0".toList, bytes_per_sector := 512,
          sectors_per_cluster := 8, total_sectors := 204800 }) := rfl

/-- C2 (amended): the legacy `inspectPartition` chain falls through to the
next candidate on ANY probe failure — the caught error is discarded, so the
result never depends on the kind of a failed probe's error, and in particular
a `MalformedStructure` ext4 outcome still lets the NTFS and FAT probes be
consulted. -/
theorem C2_fallthrough_ignores_error_kind :
    (∀ (e₁ e₂ : ProbeError) (ntfsProbe : Except ProbeError NtfsInfo)
        (fatProbe : Except ProbeError FatInfo),
        inspectPartitionLegacy (Except.error e₁) ntfsProbe fatProbe =
          inspectPartitionLegacy (Except.error e₂) ntfsProbe fatProbe) ∧
    (∀ (d : NtfsInfo) (fatProbe : Except ProbeError FatInfo),
        inspectPartitionLegacy (Except.error ProbeError.malformedStructure)
          (Except.ok d) fatProbe = some (InspectionData.ntfs d)) ∧
    (∀ (d : FatInfo),
        inspectPartitionLegacy (Except.error ProbeError.malformedStructure)
          (Except.error ProbeError.malformedStructure) (Except.ok d) =
          some (InspectionData.fat d)) :=
  ⟨fun _ _ _ _ => rfl, fun _ _ => rfl, fun _ => rfl⟩

/-- C7: a completed `fetchDevices` rescan replaces the device list with the
newly returned snapshot and clears the selected partition, the `FSInfo` and
the `PartitionAccessPlan` to `none`; moreover each of those four state slots
after the rescan is independent of the state held before it, so none of those
records survives a rescan. -/
theorem C7_fetchDevices_resets_records :
    ∀ (s sPrev : ViewerState) (res : List RawBlockDevice),
      (fetchDevicesStep s (Except.ok res)).devices = res ∧
      (fetchDevicesStep s (Except.ok res)).selectedPart = none ∧
      (fetchDevicesStep s (Except.ok res)).fsInfo = none ∧
      (fetchDevicesStep s (Except.ok res)).accessPlan = none ∧
      (fetchDevicesStep s (Except.ok res)).devices =
        (fetchDevicesStep sPrev (Except.ok res)).devices ∧
      (fetchDevicesStep s (Except.ok res)).selectedPart =
        (fetchDevicesStep sPrev (Except.ok res)).selectedPart ∧
      (fetchDevicesStep s (Except.ok res)).fsInfo =
        (fetchDevicesStep sPrev (Except.ok res)).fsInfo ∧
      (fetchDevicesStep s (Except.ok res)).accessPlan =
        (fetchDevicesStep sPrev (Except.ok res)).accessPlan := by
  intro s sPrev res
  simp [fetchDevicesStep]

/-- C9 counterexample: a failed `inspectPartition` call does NOT clear a
previously shown file preview — starting from a state holding a preview, the
error path leaves `filePreview` set, contradicting the claim that any previous
file preview is cleared in both outcomes. -/
theorem C9_stale_preview_after_failure :
    (inspectPartitionStep
        { devices := [], selectedPart := none, fsInfo := none, accessPlan := none,
          rootEntries := [], currentRelativePath := [],
          filePreview := some { name := "old.txt".toList, content := "stale".toList } }
        (Except.error "Unknown filesystem or access denied".toList)).filePreview =
      some { name := "old.txt".toList, content := "stale".toList } ∧
    ((inspectPartitionStep
        { devices := [], selectedPart := none, fsInfo := none, accessPlan := none,
          rootEntries := [], currentRelativePath := [],
          filePreview := some { name := "old.txt".toList, content := "stale".toList } }
        (Except.error "Unknown filesystem or access denied".toList)).filePreview).isSome =
      true :=
  ⟨rfl, rfl⟩

/-- C9 (amended): after `inspectPartition`, `fsInfo` and `accessPlan` are both
set on success and both `none` on failure (a mixed state is unreachable), and
`rootEntries` is reset to empty in both cases; the file preview is cleared on
success but left unchanged on failure. -/
theorem C9_inspect_state_coupling :
    (∀ (s : ViewerState) (res : FSInfo) (plan : PartitionAccessPlan),
        (inspectPartitionStep s (Except.ok (res, plan))).fsInfo = some res ∧
        (inspectPartitionStep s (Except.ok (res, plan))).accessPlan = some plan ∧
        (inspectPartitionStep s (Except.ok (res, plan))).rootEntries = [] ∧
        (inspectPartitionStep s (Except.ok (res, plan))).filePreview = none) ∧
    (∀ (s : ViewerState) (e : List Char),
        (inspectPartitionStep s (Except.error e)).fsInfo = none ∧
        (inspectPartitionStep s (Except.error e)).accessPlan = none ∧
        (inspectPartitionStep s (Except.error e)).rootEntries = [] ∧
        (inspectPartitionStep s (Except.error e)).filePreview = s.filePreview) ∧
    (∀ (s : ViewerState) (o : Except (List Char) (FSInfo × PartitionAccessPlan)),
        (inspectPartitionStep s o).fsInfo.isSome =
          (inspectPartitionStep s o).accessPlan.isSome) := by
  refine ⟨fun s res plan => ⟨rfl, rfl, rfl, rfl⟩,
          fun s e => ⟨rfl, rfl, rfl, rfl⟩, fun s o => ?_⟩
  cases o with
  | ok v => cases v; rfl
  | error e => rfl

/-- C10: `previewFile` issues no `read_partition_file_preview` call when the
entry is a directory or no partition is selected, and `openDirectory` issues
no listing call when the entry is not a directory. -/
theorem C10_guards_suppress_backend_calls :
    (∀ (s : ViewerState) (entry : RootEntry), entry.is_dir = true →
        previewFileRequest s entry = none) ∧
    (∀ (s : ViewerState) (entry : RootEntry), s.selectedPart = none →
        previewFileRequest s entry = none) ∧
    (∀ (s : ViewerState) (entry : RootEntry), entry.is_dir = false →
        openDirectoryRequest s entry = none) := by
  refine ⟨?_, ?_, ?_⟩
  · intro s entry h
    unfold previewFileRequest
    cases s.selectedPart <;> simp [h]
  · intro s entry h
    unfold previewFileRequest
    rw [h]
  · intro s entry h
    unfold openDirectoryRequest
    rw [h]
    simp

/-- C10 witness: the guards evaluated at concrete inputs. -/
theorem C10_guards_witness :
    previewFileRequest
      { devices := [], selectedPart := none, fsInfo := none, accessPlan := none,
        rootEntries := [], currentRelativePath := [], filePreview := none }
      { name := "notes".toList, path := "/notes".toList, is_dir := true, size := 0 } = none ∧
    openDirectoryRequest
      { devices := [], selectedPart := none, fsInfo := none, accessPlan := none,
        rootEntries := [], currentRelativePath := [], filePreview := none }
      { name := "a.txt".toList, path := "/a.txt".toList, is_dir := false, size := 3 } = none :=
  ⟨C10_guards_suppress_backend_calls.1 _ _ rfl,
   C10_guards_suppress_backend_calls.2.2 _ _ rfl⟩

/-- C4: with a partition selected, a successful `loadEntries` call retains
exactly the first 80 entries of the list the backend returned — all of them
when the list is shorter — in the backend's order. -/
theorem C4_loadEntries_keeps_first_80 :
    ∀ (s : ViewerState) (part : RawPartition) (rel : List Char)
      (entries : List RootEntry),
      s.selectedPart = some part →
      (loadEntriesStep s rel (Except.ok entries)).rootEntries = entries.take 80 ∧
      (loadEntriesStep s rel (Except.ok entries)).rootEntries.length ≤ 80 ∧
      (entries.length ≤ 80 →
        (loadEntriesStep s rel (Except.ok entries)).rootEntries = entries) ∧
      (∀ i : Nat, i < 80 →
        (loadEntriesStep s rel (Except.ok entries)).rootEntries.get? i =
          entries.get? i) := by
  intro s part rel entries hsel
  have hstep : (loadEntriesStep s rel (Except.ok entries)).rootEntries =
      entries.take 80 := by
    unfold loadEntriesStep
    rw [hsel]
  refine ⟨hstep, ?_, ?_, ?_⟩
  · rw [hstep, List.length_take]
    exact Nat.min_le_left _ _
  · intro hle
    rw [hstep]
    exact List.take_of_length_le hle
  · intro i hi
    rw [hstep]
    simp [List.getElem?_take_of_lt hi]

/-- C4 witness: a three-entry listing is retained whole and in order. -/
theorem C4_loadEntries_witness :
    (loadEntriesStep
      { devices := [],
        selectedPart := some { name := "sda1".toList, path := "/dev/sda1".toList,
                               size := 1024, fs_type := none },
        fsInfo := none, accessPlan := none, rootEntries := [],
        currentRelativePath := [], filePreview := none }
      [] (Except.ok
        [{ name := "a".toList, path := "/a".toList, is_dir := false, size := 1 },
         { name := "b".toList, path := "/b".toList, is_dir := true, size := 0 },
         { name := "c".toList, path := "/c".toList, is_dir := false, size := 2 }])).rootEntries =
      [{ name := "a".toList, path := "/a".toList, is_dir := false, size := 1 },
       { name := "b".toList, path := "/b".toList, is_dir := true, size := 0 },
       { name := "c".toList, path := "/c".toList, is_dir := false, size := 2 }] :=
  (C4_loadEntries_keeps_first_80 _ _ _ _ rfl).2.2.1 (by simp)

/-- C8: `normalizeRelative` returns the entry path unchanged when the plan has
no (or an empty) mount point; with a non-empty mount point it strips the
mount-point preamble when the entry path starts with it and then removes the
leading run of '/' and '\' characters, and removes only that leading run when
the entry path does not start with the mount point; the trailing conjunct
characterises "removing the leading separators": the dropped part is all
separators, dropped part ++ result = input, and the result never starts with a
separator. -/
theorem C8_normalizeRelative_correct :
    (∀ (plan : Option PartitionAccessPlan) (entryPath : List Char),
        mountPointOf plan = [] → normalizeRelative plan entryPath = entryPath) ∧
    (∀ (plan : Option PartitionAccessPlan) (entryPath : List Char),
        mountPointOf plan ≠ [] →
        (((mountPointOf plan).isPrefixOf entryPath = true →
            normalizeRelative plan entryPath =
              (entryPath.drop (mountPointOf plan).length).dropWhile isSep) ∧
         ((mountPointOf plan).isPrefixOf entryPath = false →
            normalizeRelative plan entryPath = entryPath.dropWhile isSep))) ∧
    (∀ l : List Char,
        (∀ c ∈ l.takeWhile isSep, isSep c = true) ∧
        l.takeWhile isSep ++ l.dropWhile isSep = l ∧
        (∀ (c : Char) (cs : List Char),
          l.dropWhile isSep = c :: cs → isSep c = false)) := by
  refine ⟨?_, ?_, ?_⟩
  · intro plan entryPath hm
    unfold normalizeRelative
    rw [hm]
    rfl
  · intro plan entryPath hm
    have hne : (mountPointOf plan).isEmpty = false := by
      simp [List.isEmpty_iff]
      exact hm
    constructor
    · intro hpre
      simp only [normalizeRelative, hne, hpre, Bool.false_eq_true, if_false, if_true]
    · intro hpre
      simp only [normalizeRelative, hne, hpre, Bool.false_eq_true, if_false, if_true]
  · intro l
    refine ⟨?_, List.takeWhile_append_dropWhile isSep l, dropWhile_head_sep isSep l⟩
    intro c hc
    exact List.mem_takeWhile_imp hc

/-- C8 witness: with mount point "/mnt", the entry path "/mnt//etc" normalizes
to "etc". -/
theorem C8_normalizeRelative_witness :
    normalizeRelative
      (some { path := "/dev/sda1".toList, fs_type := some "ext4".toList,
              mount_point := some "/mnt".toList, can_browse_now := true,
              message := "m".toList })
      "/mnt//etc".toList = "etc".toList := by
  have h :=
    ((C8_normalizeRelative_correct.2.1
      (some { path := "/dev/sda1".toList, fs_type := some "ext4".toList,
              mount_point := some "/mnt".toList, can_browse_now := true,
              message := "m".toList })
      "/mnt//etc".toList (by decide)).1 (by decide))
  rw [h]
  decide

/-- C1: a successful `read_preview` returns at most `limit_bytes` bytes and,
for a path resolving to a file, exactly `min(file_size, limit_bytes)` bytes;
and every `read_partition_file_preview` call issued by the UI's `previewFile`
carries `limit = 8192`. -/
theorem C1_read_preview_bounded :
    (∀ (fs : List Char → Option FsNode) (rel : List Char) (limit : Nat)
        (bytes : List Nat),
        read_preview fs rel limit = Except.ok bytes →
        bytes.length ≤ limit ∧
        ∀ content, fs rel = some (FsNode.file content) →
          bytes.length = min content.length limit) ∧
    (∀ (s : ViewerState) (entry : RootEntry) (req : PreviewRequest),
        previewFileRequest s entry = some req → req.limit = 8192) := by
  constructor
  · intro fs rel limit bytes h
    unfold read_preview at h
    cases hfs : fs rel with
    | none => rw [hfs] at h; cases h
    | some node =>
      cases node with
      | dir => rw [hfs] at h; cases h
      | file content =>
        rw [hfs] at h
        cases h
        constructor
        · rw [List.length_take]
          exact Nat.min_le_left _ _
        · intro content2 h2
          have hc : content = content2 := by
            injection h2 with h3
            injection h3
          subst hc
          rw [List.length_take, Nat.min_comm]
  · intro s entry req h
    unfold previewFileRequest at h
    split at h
    · cases h
    · split at h
      · cases h
      · cases h
        rfl

/-- C1 witness: previewing a five-byte file with limit 3 yields exactly three
bytes, and a concrete `previewFile` call carries limit 8192. -/
theorem C1_read_preview_witness :
    read_preview (fun _ => some (FsNode.file [10, 20, 30, 40, 50])) [] 3 =
      Except.ok [10, 20, 30] ∧
    ([10, 20, 30] : List Nat).length ≤ 3 ∧
    ([10, 20, 30] : List Nat).length = min 5 3 ∧
    previewFileRequest
      { devices := [],
        selectedPart := some { name := "sda1".toList, path := "/dev/sda1".toList,
                               size := 1024, fs_type := none },
        fsInfo := none, accessPlan := none, rootEntries := [],
        currentRelativePath := [], filePreview := none }
      { name := "a.txt".toList, path := "a.txt".toList, is_dir := false, size := 5 } =
      some { path := "/dev/sda1".toList, relativePath := "a.txt".toList, limit := 8192 } := by
  refine ⟨rfl, ?_, ?_, rfl⟩
  · exact (C1_read_preview_bounded.1 (fun _ => some (FsNode.file [10, 20, 30, 40, 50]))
      [] 3 [10, 20, 30] rfl).1
  · exact (C1_read_preview_bounded.1 (fun _ => some (FsNode.file [10, 20, 30, 40, 50]))
      [] 3 [10, 20, 30] rfl).2 [10, 20, 30, 40, 50] rfl

/-- C3: the Signature Detector tests the candidate formats in the fixed
precedence order ext4, NTFS, FAT/exFAT, Btrfs, XFS — the first matching magic
wins, a later magic is reported only when every earlier test failed — and when
no magic matches the result is `none` (`NotRecognized`), not an error. -/
theorem C3_detect_precedence :
    (∀ img : Image, hasExt4Magic img = true → detect img = some FsTag.ext4) ∧
    (∀ img : Image, hasExt4Magic img = false → hasNtfsMagic img = true →
        detect img = some FsTag.ntfs) ∧
    (∀ img : Image, hasExt4Magic img = false → hasNtfsMagic img = false →
        hasFatMagic img = true → detect img = some FsTag.fat) ∧
    (∀ img : Image, hasExt4Magic img = false → hasNtfsMagic img = false →
        hasFatMagic img = false → hasBtrfsMagic img = true →
        detect img = some FsTag.btrfs) ∧
    (∀ img : Image, hasExt4Magic img = false → hasNtfsMagic img = false →
        hasFatMagic img = false → hasBtrfsMagic img = false →
        hasXfsMagic img = true → detect img = some FsTag.xfs) ∧
    (∀ img : Image, hasExt4Magic img = false → hasNtfsMagic img = false →
        hasFatMagic img = false → hasBtrfsMagic img = false →
        hasXfsMagic img = false → detect img = none) := by
  refine ⟨?_, ?_, ?_, ?_, ?_, ?_⟩ <;>
    · intro img
      intros
      simp_all [detect]

/-- C3 witness: an image holding only the ext4 magic is classified as ext4,
and the all-zero image is `NotRecognized`. -/
theorem C3_detect_witness :
    detect (fun n => if n = 1080 then 0x53 else if n = 1081 then 0xEF else 0) =
      some FsTag.ext4 ∧
    detect (fun _ => 0) = none := by
  constructor
  · exact C3_detect_precedence.1 _ rfl
  · exact C3_detect_precedence.2.2.2.2.2 _ rfl rfl rfl rfl rfl

/-- C5: a plan's `can_browse_now` is true only when the partition is mounted
readable by the host — in which case the plan's own `mount_point` is that
mount point — or when the detected format has an implemented Raw Tree Walker
decoder; it is never true with both conditions absent. -/
theorem C5_can_browse_now_justified :
    ∀ (path fsType : List Char) (mountEntry : Option MountEntry)
      (hasRawDecoder : List Char → Bool),
      (planAccess path fsType mountEntry hasRawDecoder).can_browse_now = true →
      (∃ mp, mountedReadable mountEntry = some mp ∧
        (planAccess path fsType mountEntry hasRawDecoder).mount_point = some mp) ∨
      hasRawDecoder fsType = true := by
  intro path fsType me dec h
  cases hm : mountedReadable me with
  | some mp =>
    refine Or.inl ⟨mp, rfl, ?_⟩
    simp [planAccess, hm]
  | none =>
    refine Or.inr ?_
    by_cases hd : dec fsType = true
    · exact hd
    · exfalso
      simp [planAccess, hm, hd] at h

/-- C5 witness: an unmounted partition whose format has a raw decoder gets a
browsable plan whose justification is the decoder. -/
theorem C5_can_browse_witness :
    (∃ mp, mountedReadable (none : Option MountEntry) = some mp ∧
      (planAccess "/dev/sda1".toList "ext4".toList none (fun _ => true)).mount_point =
        some mp) ∨
    (fun _ : List Char => true) "ext4".toList = true :=
  C5_can_browse_now_justified "/dev/sda1".toList "ext4".toList none (fun _ => true) rfl

/-- C6 counterexample: the toast shown when `inspectPartition` fails is the
same fixed text for a permission failure and for a malformed-structure
failure, and it is not the failure's own reason string — the UI displays a
generic failure for this operation. -/
theorem C6_generic_inspect_toast :
    inspectPartitionErrorToast "PermissionDenied: raw device access refused".toList =
      inspectPartitionErrorToast "MalformedStructure: ext4 superblock corrupt".toList ∧
    inspectPartitionErrorToast "PermissionDenied: raw device access refused".toList ≠
      "PermissionDenied: raw device access refused".toList :=
  ⟨rfl, by decide⟩

/-- C6 (amended): every access plan carries a non-empty message, and the
listing and preview failure toasts surface the error's own text verbatim; but
the device-probe and partition-inspect failure toasts are fixed strings that
do not depend on the failure's reason. -/
theorem C6_message_discipline :
    (∀ (path fsType : List Char) (me : Option MountEntry)
        (dec : List Char → Bool),
        ((planAccess path fsType me dec).message).isEmpty = false) ∧
    (∀ e, loadEntriesErrorToast e = e) ∧
    (∀ e, previewFileErrorToast e = e) ∧
    (∀ e₁ e₂, inspectPartitionErrorToast e₁ = inspectPartitionErrorToast e₂) ∧
    (∀ e₁ e₂, fetchDevicesErrorToast e₁ = fetchDevicesErrorToast e₂) := by
  refine ⟨?_, fun e => rfl, fun e => rfl, fun _ _ => rfl, fun _ _ => rfl⟩
  intro path fsType me dec
  cases hm : mountedReadable me with
  | some mp => simp [planAccess, hm]
  | none =>
    by_cases hd : dec fsType = true <;> simp [planAccess, hm, hd]

end MasterBrowser
